import Mathlib

/-!
Shallow embedding of the ETL pipeline of the Business_analytics_dashboard
repository: the orchestrator `ETLPipeline.run` (src/etl/pipeline.py), the
extraction layer (src/etl/extract.py), and the warehouse loading layer.
The loading and transformation modules (`etl/load.py`, `etl/transform.py`)
are imported by the pipeline but their sources are not part of the tree;
where their behaviour is needed it is modelled from the specification and
marked as such in the doc comment.

Pandas DataFrames are modelled as a list of association-list rows together
with a column list; `datetime.now()` is modelled by a logical clock (a `Nat`
counter that advances by one at every `now()` call); exceptions are modelled
with `Except String`.
-/

/-- A DataFrame row: association list from column name to cell value. -/
abbrev Row := List (String × String)

/-- Shallow model of a pandas DataFrame: column names plus rows. -/
structure DataFrame where
  cols : List String
  rows : List Row
deriving Repr, DecidableEq

/-- `len(df)` — the number of rows. -/
def DataFrame.len (d : DataFrame) : Nat := d.rows.length

/-- `df.empty` — pandas: true when any axis has length zero. -/
def DataFrame.empty (d : DataFrame) : Bool := d.rows.isEmpty || d.cols.isEmpty

/-- Value of a row at a column, empty string when absent. -/
def rowVal (row : Row) (c : String) : String := (row.lookup c).getD ""

/-- The mapping of known dataset names to extracted/transformed DataFrames.
A field is `none` exactly when the corresponding key is absent from the
Python dict (the keys are a fixed enumeration sales, customers, products,
sales_reps; `extract_sales_data` and `_transform` only ever create these). -/
structure DataMap where
  sales : Option DataFrame
  customers : Option DataFrame
  products : Option DataFrame
  sales_reps : Option DataFrame
deriving Repr, DecidableEq

/-- Row count of an optional DataFrame. -/
def optLen : Option DataFrame → Nat
  | none => 0
  | some d => d.len

/-- `sum(len(df) for df in data.values())` over the present datasets. -/
def totalRecords (m : DataMap) : Nat :=
  optLen m.sales + optLen m.customers + optLen m.products + optLen m.sales_reps

/-- `list(data.keys())` — names of present datasets in insertion order
(sales, customers, products, sales_reps, matching both the extraction and
the transformation build order). -/
def dsNames (m : DataMap) : List String :=
  (if m.sales.isSome then ["sales"] else []) ++
  (if m.customers.isSome then ["customers"] else []) ++
  (if m.products.isSome then ["products"] else []) ++
  (if m.sales_reps.isSome then ["sales_reps"] else [])

/-- The empty extraction result (no CSV files found). -/
def emptyDataMap : DataMap := ⟨none, none, none, none⟩

/-! ## Extraction layer (src/etl/extract.py) -/

/-- The source data directory as seen by `extract.py`: whether the
directory exists and which file names it contains. -/
structure FileSystem where
  dirExists : Bool
  files : List String
deriving Repr, DecidableEq

/-- `DataExtractor.__init__`: `self.data_path.mkdir(parents=True,
exist_ok=True)` — a missing directory is silently created (and is then
empty); an existing directory is left untouched. -/
def DataExtractor.init (fs : FileSystem) : FileSystem :=
  if fs.dirExists then fs else { dirExists := true, files := [] }

/-- One `if (path / name).exists(): data[key] = extractor.extract_csv(name)`
block of `extract_sales_data`: the file is read only when present, and a
read failure propagates. `readCsv` models `pd.read_csv` on the named file. -/
def readIfPresent (g : FileSystem) (readCsv : String → Except String DataFrame)
    (f : String) : Except String (Option DataFrame) :=
  if f ∈ g.files then (readCsv f).map some else .ok none

/-- `extract_sales_data` (src/etl/extract.py): builds a `DataExtractor`
(which creates the directory when missing) and conditionally reads the four
known CSV files in order. -/
def extract_sales_data (fs : FileSystem)
    (readCsv : String → Except String DataFrame) : Except String DataMap :=
  let g := DataExtractor.init fs
  (readIfPresent g readCsv "sales_transactions.csv").bind fun s =>
  (readIfPresent g readCsv "customers.csv").bind fun c =>
  (readIfPresent g readCsv "products.csv").bind fun p =>
  (readIfPresent g readCsv "sales_reps.csv").map fun r =>
  ⟨s, c, p, r⟩

/-- `DataExtractor.validate_data` (src/etl/extract.py): False when the frame
is `None` or empty; when `required_columns` is truthy (neither `None` nor the
empty list) additionally False when some required column is missing. -/
def DataExtractor.validate_data (df : Option DataFrame)
    (required_columns : Option (List String)) : Bool :=
  match df with
  | none => false
  | some d =>
    if d.empty then false
    else
      match required_columns with
      | none => true
      | some cs =>
        if cs.isEmpty then true
        else (cs.filter (fun c => !(d.cols.contains c))).isEmpty

/-! ## Warehouse and loading layer

`src/etl/load.py` is imported by the pipeline (`DataLoader`,
`load_dimension_tables`, `load_fact_sales`, `log_etl_audit`) but its source
is not in the tree; the definitions below are modelled from the
specification (§4.2 Dimension Resolver/Loader, §4.3 Fact Loader, §4.4 Audit
Recorder). -/

/-- A dimension table row: warehouse-assigned surrogate id, natural key,
mutable business attributes. -/
structure DimRow where
  sid : Nat
  naturalKey : String
  attrs : Row
deriving Repr, DecidableEq

/-- A warehouse dimension table with its auto-increment counter. -/
structure DimTable where
  rows : List DimRow
  nextId : Nat
deriving Repr, DecidableEq

/-- The natural keys currently present in a dimension table. -/
def DimTable.keys (t : DimTable) : List String := t.rows.map (·.naturalKey)

/-- The natural-key → surrogate-key assignment of a dimension table. -/
def DimTable.keyMap (t : DimTable) : List (String × Nat) :=
  t.rows.map (fun r => (r.naturalKey, r.sid))

/-- `lookupSurrogate(table, naturalKey)` of the warehouse interface. -/
def DimTable.lookupSid (t : DimTable) (k : String) : Option Nat :=
  t.keyMap.lookup k

/-- Modelled from the spec (§4.2): upsert one dimension row by natural key —
if the key exists, overwrite mutable attributes keeping the surrogate key
(surrogate keys are never reassigned); otherwise insert with a newly
assigned surrogate key. `kc` is the dimension's natural-key column. -/
def upsertDimRow (kc : String) (t : DimTable) (row : Row) : DimTable :=
  let k := rowVal row kc
  if t.rows.any (fun dr => dr.naturalKey == k) then
    { t with rows := t.rows.map (fun dr =>
        if dr.naturalKey == k then { dr with attrs := row } else dr) }
  else
    { rows := t.rows ++ [⟨t.nextId, k, row⟩], nextId := t.nextId + 1 }

/-- Modelled from the spec (§4.2): load one dimension dataset, returning the
updated table and records_written (inserted and updated rows both count). -/
def loadDimension (kc : String) (t : DimTable) (d : DataFrame) : DimTable × Nat :=
  (d.rows.foldl (upsertDimRow kc) t, d.rows.length)

/-- A loaded fact row: order natural key, resolved surrogate references,
the resolved date and the remaining attributes. -/
structure FactRow where
  order_number : String
  customer_sid : Nat
  product_sid : Nat
  rep_sid : Nat
  order_date : String
  attrs : Row
deriving Repr, DecidableEq

/-- The warehouse: three dimension tables, the sales fact table, and the
pre-populated date dimension (a fixed calendar, never written by a run). -/
structure Warehouse where
  customers : DimTable
  products : DimTable
  sales_reps : DimTable
  fact_sales : List FactRow
  dates : List String
deriving Repr, DecidableEq

/-- Modelled from the spec (§4.3): resolve one fact row's dimension
references (customer, product, rep, transaction date) through the
surrogate-key maps built in this run; any miss rejects the row. -/
def resolveFactRow (wh : Warehouse) (row : Row) : Option FactRow := do
  let c ← wh.customers.lookupSid (rowVal row "customer_code")
  let p ← wh.products.lookupSid (rowVal row "product_code")
  let r ← wh.sales_reps.lookupSid (rowVal row "rep_code")
  let d := rowVal row "order_date"
  if d ∈ wh.dates then
    pure ⟨rowVal row "order_number", c, p, r, d, row⟩
  else
    none

/-- Modelled from the spec (§4.3): insert-or-update a fact row by the fact
table's natural identity (the order number). -/
def upsertFactRow (tbl : List FactRow) (f : FactRow) : List FactRow :=
  if tbl.any (fun t => t.order_number == f.order_number) then
    tbl.map (fun t => if t.order_number == f.order_number then f else t)
  else
    tbl ++ [f]

/-- Modelled from the spec (§4.3): `load_fact_sales` — resolve every row,
skip (do not fail on) unresolvable rows, upsert the resolved rows by order
number; records_written is the number of resolved rows. -/
def load_fact_sales (wh : Warehouse) (d : DataFrame) : Warehouse × Nat :=
  let accepted := d.rows.filterMap (resolveFactRow wh)
  ({ wh with fact_sales := accepted.foldl upsertFactRow wh.fact_sales },
   accepted.length)

/-- The dimension-shaped part of a transformed data map — the dict
comprehension of `_load` filtering on customers, products, sales_reps. -/
structure DimData where
  customers : Option DataFrame
  products : Option DataFrame
  sales_reps : Option DataFrame
deriving Repr, DecidableEq

/-- Truthiness of the `dimension_data` dict in `_load`. -/
def DimData.isEmpty (d : DimData) : Bool :=
  d.customers.isNone && d.products.isNone && d.sales_reps.isNone

/-- The `{k: v for k, v in transformed_data.items() if k in [...]}` filter. -/
def dimPart (m : DataMap) : DimData := ⟨m.customers, m.products, m.sales_reps⟩

/-- Load one optional dimension dataset. -/
def loadDim? (kc : String) (t : DimTable) : Option DataFrame → DimTable × Option Nat
  | none => (t, none)
  | some d =>
    let r := loadDimension kc t d
    (r.1, some r.2)

/-- Modelled from the spec (§4.2): `load_dimension_tables` — upsert every
present dimension dataset, returning per-table records_written. -/
def load_dimension_tables (wh : Warehouse) (dm : DimData) :
    Warehouse × List (String × Nat) :=
  let c := loadDim? "customer_code" wh.customers dm.customers
  let p := loadDim? "product_code" wh.products dm.products
  let r := loadDim? "rep_code" wh.sales_reps dm.sales_reps
  ({ wh with customers := c.1, products := p.1, sales_reps := r.1 },
   (match c.2 with | some n => [("customers", n)] | none => []) ++
   (match p.2 with | some n => [("products", n)] | none => []) ++
   (match r.2 with | some n => [("sales_reps", n)] | none => []))

/-- An observable call made by the Load stage, in call order. -/
inductive LoadEvent
  | dim (name : String)
  | fact
deriving Repr, DecidableEq

/-- `ETLPipeline._load` (src/etl/pipeline.py): filter out the dimension
datasets, load them first via `load_dimension_tables` when any are present,
then load the fact dataset via `load_fact_sales` when present.  The third
component records the calls actually made, in order. -/
def ETLPipeline._load (wh : Warehouse) (td : DataMap) :
    Warehouse × List (String × Nat) × List LoadEvent :=
  let dimData := dimPart td
  let step1 :=
    if dimData.isEmpty then (wh, ([] : List (String × Nat)), ([] : List LoadEvent))
    else
      let r := load_dimension_tables wh dimData
      (r.1, r.2, r.2.map (fun p => LoadEvent.dim p.1))
  match td.sales with
  | some d =>
    let f := load_fact_sales step1.1 d
    (f.1, step1.2.1 ++ [("sales", f.2)], step1.2.2 ++ [LoadEvent.fact])
  | none => step1

/-- The dimension tables loaded by `_load` before any fact load (the `wh1`
the fact loader runs against). -/
def loadDimsOf (wh : Warehouse) (td : DataMap) : Warehouse :=
  if (dimPart td).isEmpty then wh else (load_dimension_tables wh (dimPart td)).1

/-- `_load` packaged as the Load-stage computation handed to the
orchestrator (the modelled loaders are total; spec LoadError is an
environment failure, covered by the orchestrator's abstract load slot). -/
def ldOf (wh : Warehouse) (td : DataMap) :
    Except String (Warehouse × List (String × Nat)) :=
  .ok ((ETLPipeline._load wh td).1, (ETLPipeline._load wh td).2.1)

/-! ## Transform stage (src/etl/pipeline.py `_transform`) -/

/-- The four per-dataset transformation adapters imported from
`etl/transform.py` (source not in the tree).  Modelled from the spec (§6):
`transform(datasetName, RawDataset) -> CanonicalDataset`, failing with a
validation error when required fields are absent — hence `Except`. -/
structure TransformAdapters where
  sales : DataFrame → Except String DataFrame
  customers : DataFrame → Except String DataFrame
  products : DataFrame → Except String DataFrame
  sales_reps : DataFrame → Except String DataFrame

/-- One `if name in raw_data:` block of `_transform`: the adapter runs only
when the dataset is present, and its failure propagates. -/
def tOpt (f : DataFrame → Except String DataFrame) :
    Option DataFrame → Except String (Option DataFrame)
  | none => .ok none
  | some d => (f d).map some

/-- `ETLPipeline._transform` (src/etl/pipeline.py): transform each known
dataset present in the extracted map, in order sales, customers, products,
sales_reps; absent datasets are skipped; any adapter failure propagates. -/
def ETLPipeline._transform (a : TransformAdapters) (m : DataMap) :
    Except String DataMap :=
  (tOpt a.sales m.sales).bind fun s =>
  (tOpt a.customers m.customers).bind fun c =>
  (tOpt a.products m.products).bind fun p =>
  (tOpt a.sales_reps m.sales_reps).map fun r =>
  ⟨s, c, p, r⟩

/-! ## Orchestrator (src/etl/pipeline.py `ETLPipeline.run`) -/

/-- Pipeline stage names. -/
inductive Stage
  | Extract
  | Transform
  | Load
deriving Repr, DecidableEq

/-- Audit statuses. -/
inductive Status
  | Started
  | Success
  | Failed
deriving Repr, DecidableEq

/-- One audit record, schema per spec §3. -/
structure AuditRecord where
  pipeline_name : String
  stage : Stage
  status : Status
  records_processed : Nat
  error_message : Option String
  start_time : Nat
  duration : Nat
deriving Repr, DecidableEq

/-- Modelled from the spec (§4.4): `DataLoader.log_etl_audit` from
`etl/load.py` (source not in the tree) — append one record, with duration
computed as now − start_time at the moment of the record; never fails the
caller.  Reading `now` advances the clock. -/
def log_etl_audit (audit : List AuditRecord) (clock : Nat) (pname : String)
    (stage : Stage) (status : Status) (records : Nat) (err : Option String)
    (start_time : Nat) : List AuditRecord × Nat :=
  (audit ++ [⟨pname, stage, status, records, err, start_time, clock - start_time⟩],
   clock + 1)

/-- One entry of `self.stats`: status string, record count, and the
`datasets`/`tables` name list (absent before stage success). -/
structure StageStats where
  status : String
  records : Nat
  names : List String
deriving Repr, DecidableEq

/-- `self.stats` of the orchestrator. -/
structure PipelineStats where
  extract : StageStats
  transform : StageStats
  load : StageStats
deriving Repr, DecidableEq

/-- The constructor-time stats: every stage `'Not Started'` with 0 records. -/
def initStats : PipelineStats :=
  ⟨⟨"Not Started", 0, []⟩, ⟨"Not Started", 0, []⟩, ⟨"Not Started", 0, []⟩⟩

/-- The failure classification of `run`'s except-branch: the first stage
whose recorded status is not `'Success'` (extract, else transform, else
load). -/
def classifyFailedStage (st : PipelineStats) : Stage :=
  if st.extract.status ≠ "Success" then .Extract
  else if st.transform.status ≠ "Success" then .Transform
  else .Load

/-- `sum(load_results.values())`. -/
def sumVals (l : List (String × Nat)) : Nat := l.foldl (fun a p => a + p.2) 0

/-- Everything a run leaves behind: the audit trail, the final stats, the
warehouse, and the returned value (`.ok stats`) or propagated error. -/
structure RunOutcome where
  audit : List AuditRecord
  stats : PipelineStats
  warehouse : Warehouse
  result : Except String PipelineStats
deriving Repr

/-- The except-branch of `run`: classify the failure to the first
non-Success stage, emit one Failed audit record carrying the error message
and the run's `self.start_time`, then re-raise. -/
def failRun (pname : String) (audit : List AuditRecord) (clock : Nat)
    (st : PipelineStats) (startTime : Nat) (e : String) (wh : Warehouse) :
    RunOutcome :=
  let stage := classifyFailedStage st
  let r := log_etl_audit audit clock pname stage .Failed 0 (some e) startTime
  ⟨r.1, st, wh, .error e⟩

/-- `ETLPipeline.run` (src/etl/pipeline.py).  The stage bodies are the
computations the orchestrator invokes: `ext` is the result of
`self._extract(data_path)`, `trf` is `self._transform`, `ld` is
`self._load` (each already raising/propagating as the stage methods do);
`t0` is the wall-clock value at run start, and every `datetime.now()` call
advances the clock by one.  Stats mutation, audit emission, failure
classification and re-raising follow the Python control flow. -/
def ETLPipeline.run (pname : String) (t0 : Nat)
    (ext : Except String DataMap)
    (trf : DataMap → Except String DataMap)
    (ld : Warehouse → DataMap → Except String (Warehouse × List (String × Nat)))
    (wh : Warehouse) : RunOutcome :=
  let startTime := t0
  let clock := t0 + 1
  let st0 := initStats
  let l1 := log_etl_audit [] clock pname .Extract .Started 0 none startTime
  match ext with
  | .error e =>
    failRun pname l1.1 l1.2
      { st0 with extract := { st0.extract with status := "Failed" } }
      startTime e wh
  | .ok raw =>
    let st1 := { st0 with extract := ⟨"Success", totalRecords raw, dsNames raw⟩ }
    let l2 := log_etl_audit l1.1 l1.2 pname .Extract .Success (totalRecords raw)
      none startTime
    let transformStart := l2.2
    let clock2 := l2.2 + 1
    let l3 := log_etl_audit l2.1 clock2 pname .Transform .Started 0 none
      transformStart
    match trf raw with
    | .error e =>
      failRun pname l3.1 l3.2
        { st1 with transform := { st1.transform with status := "Failed" } }
        startTime e wh
    | .ok td =>
      let st2 := { st1 with transform := ⟨"Success", totalRecords td, dsNames td⟩ }
      let l4 := log_etl_audit l3.1 l3.2 pname .Transform .Success
        (totalRecords td) none transformStart
      let loadStart := l4.2
      let clock3 := l4.2 + 1
      let l5 := log_etl_audit l4.1 clock3 pname .Load .Started 0 none loadStart
      match ld wh td with
      | .error e =>
        failRun pname l5.1 l5.2
          { st2 with load := { st2.load with status := "Failed" } }
          startTime e wh
      | .ok res =>
        let st3 := { st2 with load :=
          ⟨"Success", sumVals res.2, res.2.map Prod.fst⟩ }
        let l6 := log_etl_audit l5.1 l5.2 pname .Load .Success (sumVals res.2)
          none loadStart
        ⟨l6.1, st3, res.1, .ok st3⟩

/-! ## Observables used by the claims -/

/-- True when every dimension-load call precedes every fact-load call. -/
def dimsBeforeFacts : List LoadEvent → Bool
  | [] => true
  | LoadEvent.fact :: rest => rest.all (· == LoadEvent.fact)
  | LoadEvent.dim _ :: rest => dimsBeforeFacts rest

/-- The three surrogate-key assignments of a warehouse. -/
def Warehouse.keyMaps (wh : Warehouse) :
    List (String × Nat) × List (String × Nat) × List (String × Nat) :=
  (wh.customers.keyMap, wh.products.keyMap, wh.sales_reps.keyMap)

/-- The order numbers of a fact table. -/
def factKeys (tbl : List FactRow) : List String := tbl.map (·.order_number)

/-- Natural identity of the fact table is duplicate-free. -/
def uniqueFactKeys (tbl : List FactRow) : Prop := (factKeys tbl).Nodup

/-- The first stage body that raises in a run, with its error, when any
does: extract is attempted first, then transform on its output, then load. -/
def raisingStage (ext : Except String DataMap)
    (trf : DataMap → Except String DataMap)
    (ld : Warehouse → DataMap → Except String (Warehouse × List (String × Nat)))
    (wh : Warehouse) : Option (Stage × String) :=
  match ext with
  | .error e => some (.Extract, e)
  | .ok raw =>
    match trf raw with
    | .error e => some (.Transform, e)
    | .ok td =>
      match ld wh td with
      | .error e => some (.Load, e)
      | .ok _ => none

/-- An empty warehouse (fresh dimension and fact tables, empty calendar). -/
def whEmpty : Warehouse := ⟨⟨[], 1⟩, ⟨[], 1⟩, ⟨[], 1⟩, [], []⟩

/-- A concrete run whose transform stage raises, for inspecting the audit
trail start times. -/
def c8run : RunOutcome :=
  ETLPipeline.run "p" 0 (.ok emptyDataMap) (fun _ => .error "boom")
    (fun _ _ => .error "x") whEmpty

/-- A sample sales-transaction source row with order number ORD001. -/
def ord1Row : Row :=
  [("order_number", "ORD001"), ("customer_code", "C1"), ("product_code", "P1"),
   ("rep_code", "R1"), ("order_date", "2024-01-15")]

/-- A one-transaction sales dataset. -/
def salesDfC2 : DataFrame :=
  ⟨["order_number", "customer_code", "product_code", "rep_code", "order_date"],
   [ord1Row]⟩

/-- A concrete transformed data map carrying one customer, one product, one
sales rep and the single transaction ORD001. -/
def tdC2 : DataMap :=
  ⟨some salesDfC2,
   some ⟨["customer_code"], [[("customer_code", "C1")]]⟩,
   some ⟨["product_code"], [[("product_code", "P1")]]⟩,
   some ⟨["rep_code"], [[("rep_code", "R1")]]⟩⟩

/-- A warehouse with empty tables whose calendar contains the sample date. -/
def whC2 : Warehouse := ⟨⟨[], 1⟩, ⟨[], 1⟩, ⟨[], 1⟩, [], ["2024-01-15"]⟩

/-! ## Claim theorems -/

/-- C1: for every run in which some stage raises, `ETLPipeline.run` emits
exactly one Failed audit record, that record names the first stage whose
recorded status is not Success (extract, else transform, else load — which
is exactly the stage that raised) and carries the captured error message,
and the run propagates the failure to the caller instead of returning
normally. -/
theorem C1_failed_audit_and_propagation (pname : String) (t0 : Nat)
    (ext : Except String DataMap) (trf : DataMap → Except String DataMap)
    (ld : Warehouse → DataMap → Except String (Warehouse × List (String × Nat)))
    (wh : Warehouse) (stg : Stage) (e : String)
    (h : raisingStage ext trf ld wh = some (stg, e)) :
    ∃ d,
      (ETLPipeline.run pname t0 ext trf ld wh).result = .error e ∧
      (ETLPipeline.run pname t0 ext trf ld wh).audit.filter
          (fun r => r.status == Status.Failed) =
        [⟨pname, stg, Status.Failed, 0, some e, t0, d⟩] ∧
      classifyFailedStage (ETLPipeline.run pname t0 ext trf ld wh).stats = stg := by
  cases hext : ext with
  | error e' =>
    simp [raisingStage, hext] at h
    obtain ⟨h1, h2⟩ := h
    subst h1 h2
    refine ⟨2, ?_⟩
    simp [ETLPipeline.run, failRun, log_etl_audit, classifyFailedStage, initStats]
    omega
  | ok raw =>
    cases htrf : trf raw with
    | error e' =>
      simp [raisingStage, hext, htrf] at h
      obtain ⟨h1, h2⟩ := h
      subst h1 h2
      refine ⟨5, ?_⟩
      simp [ETLPipeline.run, failRun, log_etl_audit, classifyFailedStage,
        initStats, htrf]
      omega
    | ok td =>
      cases hld : ld wh td with
      | error e' =>
        simp [raisingStage, hext, htrf, hld] at h
        obtain ⟨h1, h2⟩ := h
        subst h1 h2
        refine ⟨8, ?_⟩
        simp [ETLPipeline.run, failRun, log_etl_audit, classifyFailedStage,
          initStats, htrf, hld]
        omega
      | ok res =>
        simp [raisingStage, hext, htrf, hld] at h

/-- Witness for C1: a concrete run whose transform stage raises. -/
theorem C1_witness :
    raisingStage (.ok emptyDataMap) (fun _ => .error "boom") ldOf
        ⟨⟨[], 1⟩, ⟨[], 1⟩, ⟨[], 1⟩, [], []⟩ = some (.Transform, "boom") ∧
    ∃ d,
      (ETLPipeline.run "p" 0 (.ok emptyDataMap) (fun _ => .error "boom") ldOf
          ⟨⟨[], 1⟩, ⟨[], 1⟩, ⟨[], 1⟩, [], []⟩).result = .error "boom" ∧
      (ETLPipeline.run "p" 0 (.ok emptyDataMap) (fun _ => .error "boom") ldOf
          ⟨⟨[], 1⟩, ⟨[], 1⟩, ⟨[], 1⟩, [], []⟩).audit.filter
          (fun r => r.status == Status.Failed) =
        [⟨"p", .Transform, Status.Failed, 0, some "boom", 0, d⟩] ∧
      classifyFailedStage (ETLPipeline.run "p" 0 (.ok emptyDataMap)
          (fun _ => .error "boom") ldOf
          ⟨⟨[], 1⟩, ⟨[], 1⟩, ⟨[], 1⟩, [], []⟩).stats = .Transform :=
  ⟨rfl, C1_failed_audit_and_propagation "p" 0 (.ok emptyDataMap)
    (fun _ => .error "boom") ldOf ⟨⟨[], 1⟩, ⟨[], 1⟩, ⟨[], 1⟩, [], []⟩
    .Transform "boom" rfl⟩

/-- C6: for every source and stage behaviour, `ETLPipeline.run` returns the
final PipelineStats when no stage raises, and whenever any stage raises it
fails with exactly that underlying cause while the audit trail carries a
Failed record naming that failing stage together with the cause — the
StageFailure{stage, cause} observable of the contract. -/
theorem C6_run_returns_stats_or_stage_failure (pname : String) (t0 : Nat)
    (ext : Except String DataMap) (trf : DataMap → Except String DataMap)
    (ld : Warehouse → DataMap → Except String (Warehouse × List (String × Nat)))
    (wh : Warehouse) :
    (raisingStage ext trf ld wh = none →
      ∃ st, (ETLPipeline.run pname t0 ext trf ld wh).result = .ok st) ∧
    (∀ stg cause, raisingStage ext trf ld wh = some (stg, cause) →
      (ETLPipeline.run pname t0 ext trf ld wh).result = .error cause ∧
      ∃ r ∈ (ETLPipeline.run pname t0 ext trf ld wh).audit,
        r.stage = stg ∧ r.status = Status.Failed ∧
        r.error_message = some cause) := by
  cases hext : ext with
  | error e =>
    constructor
    · intro h
      simp [raisingStage, hext] at h
    · intro stg cause h
      simp [raisingStage, hext] at h
      obtain ⟨h1, h2⟩ := h
      subst h1 h2
      constructor <;>
        simp [ETLPipeline.run, failRun, log_etl_audit, classifyFailedStage,
          initStats]
  | ok raw =>
    cases htrf : trf raw with
    | error e =>
      constructor
      · intro h
        simp [raisingStage, hext, htrf] at h
      · intro stg cause h
        simp [raisingStage, hext, htrf] at h
        obtain ⟨h1, h2⟩ := h
        subst h1 h2
        constructor <;>
          simp [ETLPipeline.run, failRun, log_etl_audit, classifyFailedStage,
            initStats, htrf]
    | ok td =>
      cases hld : ld wh td with
      | error e =>
        constructor
        · intro h
          simp [raisingStage, hext, htrf, hld] at h
        · intro stg cause h
          simp [raisingStage, hext, htrf, hld] at h
          obtain ⟨h1, h2⟩ := h
          subst h1 h2
          constructor <;>
            simp [ETLPipeline.run, failRun, log_etl_audit, classifyFailedStage,
              initStats, htrf, hld]
      | ok res =>
        constructor
        · intro h
          simp [ETLPipeline.run, log_etl_audit, htrf, hld]
        · intro stg cause h
          simp [raisingStage, hext, htrf, hld] at h

/-- Witness for C6: a concrete run whose load stage raises — the run fails
with the cause and the Failed record names the Load stage. -/
theorem C6_witness :
    (ETLPipeline.run "p" 0 (.ok emptyDataMap) (fun m => .ok m)
        (fun _ _ => .error "db down") whEmpty).result = .error "db down" ∧
    ∃ r ∈ (ETLPipeline.run "p" 0 (.ok emptyDataMap) (fun m => .ok m)
        (fun _ _ => .error "db down") whEmpty).audit,
      r.stage = Stage.Load ∧ r.status = Status.Failed ∧
      r.error_message = some "db down" :=
  (C6_run_returns_stats_or_stage_failure "p" 0 (.ok emptyDataMap)
    (fun m => .ok m) (fun _ _ => .error "db down") whEmpty).2 .Load "db down" rfl

/-- C8 counterexample: in a concrete run whose transform stage raises, the
Transform Started record carries start_time 3 (the stage's own start) while
the Transform terminal (Failed) record carries start_time 0 (the run's
start), so the terminal record does not share the stage's Started
start_time. -/
theorem C8_failed_start_time_counterexample :
    c8run.audit.map (fun r => (r.stage, r.status, r.start_time)) =
      [(Stage.Extract, Status.Started, 0), (Stage.Extract, Status.Success, 0),
       (Stage.Transform, Status.Started, 3), (Stage.Transform, Status.Failed, 0)] ∧
    (3 : Nat) ≠ 0 := by
  constructor
  · rfl
  · decide

/-- C8 amended: terminal Success records are recorded with the same
start_time as their stage's Started record (and their duration is now minus
that start_time, by the audit recorder); terminal Failed records are
instead always recorded with the run's own start time `t0` (so they agree
with the claim only when the failing stage is Extract, whose Started record
also carries `t0`). -/
theorem C8_amended_terminal_start_times (pname : String) (t0 : Nat)
    (ext : Except String DataMap) (trf : DataMap → Except String DataMap)
    (ld : Warehouse → DataMap → Except String (Warehouse × List (String × Nat)))
    (wh : Warehouse) :
    ((ETLPipeline.run pname t0 ext trf ld wh).audit.all fun r =>
      r.status != Status.Failed || r.start_time == t0) = true ∧
    ((ETLPipeline.run pname t0 ext trf ld wh).audit.all fun r =>
      r.status != Status.Success ||
      (ETLPipeline.run pname t0 ext trf ld wh).audit.any fun r2 =>
        r2.stage == r.stage && r2.status == Status.Started &&
        r2.start_time == r.start_time) = true := by
  cases hext : ext with
  | error e =>
    constructor <;>
      simp [ETLPipeline.run, failRun, log_etl_audit, classifyFailedStage, initStats]
  | ok raw =>
    cases htrf : trf raw with
    | error e =>
      constructor <;>
        simp [ETLPipeline.run, failRun, log_etl_audit, classifyFailedStage,
          initStats, htrf]
    | ok td =>
      cases hld : ld wh td with
      | error e =>
        constructor <;>
          simp [ETLPipeline.run, failRun, log_etl_audit, classifyFailedStage,
            initStats, htrf, hld]
      | ok res =>
        constructor <;>
          simp [ETLPipeline.run, log_etl_audit, htrf, hld]

/-- C4: in every run, the Load stage loads all dimension-shaped datasets
present in the transformed data (customers, products, sales_reps) via
`load_dimension_tables` before any call to `load_fact_sales`: in the call
trace of `_load` every dimension-load event precedes every fact-load event,
each present dimension dataset has its load event, and a fact-load event
occurs exactly when the sales dataset is present. -/
theorem C4_dimensions_load_before_facts (wh : Warehouse) (td : DataMap) :
    dimsBeforeFacts (ETLPipeline._load wh td).2.2 = true ∧
    (td.customers.isSome = true →
      LoadEvent.dim "customers" ∈ (ETLPipeline._load wh td).2.2) ∧
    (td.products.isSome = true →
      LoadEvent.dim "products" ∈ (ETLPipeline._load wh td).2.2) ∧
    (td.sales_reps.isSome = true →
      LoadEvent.dim "sales_reps" ∈ (ETLPipeline._load wh td).2.2) ∧
    (LoadEvent.fact ∈ (ETLPipeline._load wh td).2.2 ↔ td.sales.isSome = true) := by
  obtain ⟨s, c, p, r⟩ := td
  cases s <;> cases c <;> cases p <;> cases r <;>
    simp [ETLPipeline._load, dimPart, DimData.isEmpty, load_dimension_tables,
      loadDim?, dimsBeforeFacts]

/-- Witness for C4: a transformed map with all four datasets present. -/
theorem C4_witness :
    dimsBeforeFacts (ETLPipeline._load whEmpty
        ⟨some ⟨[], []⟩, some ⟨[], []⟩, some ⟨[], []⟩, some ⟨[], []⟩⟩).2.2 = true ∧
    LoadEvent.dim "customers" ∈ (ETLPipeline._load whEmpty
        ⟨some ⟨[], []⟩, some ⟨[], []⟩, some ⟨[], []⟩, some ⟨[], []⟩⟩).2.2 ∧
    LoadEvent.dim "products" ∈ (ETLPipeline._load whEmpty
        ⟨some ⟨[], []⟩, some ⟨[], []⟩, some ⟨[], []⟩, some ⟨[], []⟩⟩).2.2 ∧
    LoadEvent.dim "sales_reps" ∈ (ETLPipeline._load whEmpty
        ⟨some ⟨[], []⟩, some ⟨[], []⟩, some ⟨[], []⟩, some ⟨[], []⟩⟩).2.2 ∧
    LoadEvent.fact ∈ (ETLPipeline._load whEmpty
        ⟨some ⟨[], []⟩, some ⟨[], []⟩, some ⟨[], []⟩, some ⟨[], []⟩⟩).2.2 := by
  have h := C4_dimensions_load_before_facts whEmpty
    ⟨some ⟨[], []⟩, some ⟨[], []⟩, some ⟨[], []⟩, some ⟨[], []⟩⟩
  exact ⟨h.1, h.2.1 rfl, h.2.2.1 rfl, h.2.2.2.1 rfl, h.2.2.2.2.mpr rfl⟩

/-- C7 counterexample: with the source data directory missing, the Extract
stage does not fail — `DataExtractor.__init__` creates the directory and
`extract_sales_data` succeeds with the empty dataset mapping, even when
every attempted read would fail. -/
theorem C7_missing_dir_counterexample :
    extract_sales_data ⟨false, ["sales_transactions.csv"]⟩
      (fun _ => .error "SourceUnavailable") = .ok emptyDataMap := by rfl

/-- C7 amended: a missing extraction target directory is not an error — the
constructor silently creates it (mkdir with parents and exist_ok), so
`extract_sales_data` on a missing directory always succeeds with the empty
dataset mapping rather than failing with SourceUnavailable. -/
theorem C7_amended_missing_dir_yields_empty_success (files : List String)
    (readCsv : String → Except String DataFrame) :
    extract_sales_data ⟨false, files⟩ readCsv = .ok emptyDataMap := by rfl

/-- A conditional read succeeds whenever reading the file (if present)
succeeds, and yields a frame exactly when the file is present. -/
theorem readIfPresent_ok (g : FileSystem)
    (readCsv : String → Except String DataFrame) (f : String)
    (h : f ∈ g.files → ∃ d, readCsv f = .ok d) :
    ∃ o, readIfPresent g readCsv f = .ok o ∧ (o.isSome = true ↔ f ∈ g.files) := by
  by_cases hf : f ∈ g.files
  · obtain ⟨d, hd⟩ := h hf
    exact ⟨some d, by simp [readIfPresent, hf, hd, Except.map], by simp [hf]⟩
  · exact ⟨none, by simp [readIfPresent, hf], by simp [hf]⟩

/-- C9: whenever the known CSV files that are present are readable,
`extract_sales_data` returns a mapping whose keys are among sales,
customers, products, sales_reps, with each key present exactly when its
CSV file exists in the (possibly just created) data directory; in
particular absence of any or all of the files never raises. -/
theorem C9_extract_keys_match_files (fs : FileSystem)
    (readCsv : String → Except String DataFrame)
    (h : ∀ f, f ∈ ["sales_transactions.csv", "customers.csv", "products.csv",
        "sales_reps.csv"] → f ∈ (DataExtractor.init fs).files →
        ∃ d, readCsv f = .ok d) :
    ∃ m, extract_sales_data fs readCsv = .ok m ∧
      (m.sales.isSome = true ↔
        "sales_transactions.csv" ∈ (DataExtractor.init fs).files) ∧
      (m.customers.isSome = true ↔ "customers.csv" ∈ (DataExtractor.init fs).files) ∧
      (m.products.isSome = true ↔ "products.csv" ∈ (DataExtractor.init fs).files) ∧
      (m.sales_reps.isSome = true ↔
        "sales_reps.csv" ∈ (DataExtractor.init fs).files) := by
  obtain ⟨s, hs, hs2⟩ := readIfPresent_ok (DataExtractor.init fs) readCsv
    "sales_transactions.csv" (h _ (by simp))
  obtain ⟨c, hc, hc2⟩ := readIfPresent_ok (DataExtractor.init fs) readCsv
    "customers.csv" (h _ (by simp))
  obtain ⟨p, hp, hp2⟩ := readIfPresent_ok (DataExtractor.init fs) readCsv
    "products.csv" (h _ (by simp))
  obtain ⟨r, hr, hr2⟩ := readIfPresent_ok (DataExtractor.init fs) readCsv
    "sales_reps.csv" (h _ (by simp))
  refine ⟨⟨s, c, p, r⟩, ?_, hs2, hc2, hp2, hr2⟩
  simp [extract_sales_data, hs, hc, hp, hr, Except.bind, Except.map]

/-- Witness for C9: a directory holding only customers.csv, with reads
returning an empty frame. -/
theorem C9_witness :
    ∃ m, extract_sales_data ⟨true, ["customers.csv"]⟩
        (fun _ => .ok ⟨[], []⟩) = .ok m ∧
      (m.sales.isSome = true ↔ "sales_transactions.csv" ∈
        (DataExtractor.init ⟨true, ["customers.csv"]⟩).files) ∧
      (m.customers.isSome = true ↔ "customers.csv" ∈
        (DataExtractor.init ⟨true, ["customers.csv"]⟩).files) ∧
      (m.products.isSome = true ↔ "products.csv" ∈
        (DataExtractor.init ⟨true, ["customers.csv"]⟩).files) ∧
      (m.sales_reps.isSome = true ↔ "sales_reps.csv" ∈
        (DataExtractor.init ⟨true, ["customers.csv"]⟩).files) :=
  C9_extract_keys_match_files ⟨true, ["customers.csv"]⟩ (fun _ => .ok ⟨[], []⟩)
    (fun _ _ _ => ⟨⟨[], []⟩, rfl⟩)

/-- C10: `validate_data` returns True exactly when the frame is present and
non-empty and every required column (none required when the argument is
omitted/None, and vacuously when the list is empty) is among its columns;
it is a total pure function of its inputs. -/
theorem C10_validate_data_iff (df : Option DataFrame)
    (cs : Option (List String)) :
    DataExtractor.validate_data df cs = true ↔
      ∃ d, df = some d ∧ d.empty = false ∧ ∀ c ∈ cs.getD [], c ∈ d.cols := by
  cases df with
  | none => simp [DataExtractor.validate_data]
  | some d =>
    by_cases he : d.empty
    · simp [DataExtractor.validate_data, he]
    · cases cs with
      | none => simp [DataExtractor.validate_data, he]
      | some l =>
        by_cases hl : l.isEmpty
        · rw [List.isEmpty_iff] at hl
          subst hl
          simp [DataExtractor.validate_data, he]
        · simp [DataExtractor.validate_data, he, hl, List.isEmpty_iff,
            List.filter_eq_nil_iff]

/-- An optional dataset transforms successfully whenever its adapter
succeeds on it, is skipped when absent, and presence is preserved. -/
theorem tOpt_ok (f : DataFrame → Except String DataFrame) (o : Option DataFrame)
    (h : ∀ d, o = some d → ∃ d2, f d = .ok d2) :
    ∃ o2, tOpt f o = .ok o2 ∧ o2.isSome = o.isSome := by
  cases o with
  | none => exact ⟨none, rfl, rfl⟩
  | some d =>
    obtain ⟨d2, hd⟩ := h d rfl
    exact ⟨some d2, by simp [tOpt, hd, Except.map], rfl⟩

/-- C5: for every extracted mapping over the known dataset names whose
present datasets transform successfully, the Transform stage completes
without raising, processing exactly the datasets present (presence is
preserved, absent ones are skipped), and the Load stage completes without
raising; and an empty extraction result yields a run that returns normally
with every stage reporting status Success and zero records. -/
theorem C5_partial_and_empty_source_tolerance (a : TransformAdapters)
    (m : DataMap) (wh : Warehouse) (pname : String) (t0 : Nat)
    (hs : ∀ d, m.sales = some d → ∃ d2, a.sales d = .ok d2)
    (hc : ∀ d, m.customers = some d → ∃ d2, a.customers d = .ok d2)
    (hp : ∀ d, m.products = some d → ∃ d2, a.products d = .ok d2)
    (hr : ∀ d, m.sales_reps = some d → ∃ d2, a.sales_reps d = .ok d2) :
    (∃ td, ETLPipeline._transform a m = .ok td ∧
      td.sales.isSome = m.sales.isSome ∧
      td.customers.isSome = m.customers.isSome ∧
      td.products.isSome = m.products.isSome ∧
      td.sales_reps.isSome = m.sales_reps.isSome ∧
      ∃ res, ldOf wh td = .ok res) ∧
    ((ETLPipeline.run pname t0 (.ok emptyDataMap)
        (ETLPipeline._transform a) ldOf wh).result =
      .ok ⟨⟨"Success", 0, []⟩, ⟨"Success", 0, []⟩, ⟨"Success", 0, []⟩⟩ ∧
     (ETLPipeline.run pname t0 (.ok emptyDataMap)
        (ETLPipeline._transform a) ldOf wh).stats =
      ⟨⟨"Success", 0, []⟩, ⟨"Success", 0, []⟩, ⟨"Success", 0, []⟩⟩) := by
  constructor
  · obtain ⟨s, hs1, hs2⟩ := tOpt_ok a.sales m.sales hs
    obtain ⟨c, hc1, hc2⟩ := tOpt_ok a.customers m.customers hc
    obtain ⟨p, hp1, hp2⟩ := tOpt_ok a.products m.products hp
    obtain ⟨r, hr1, hr2⟩ := tOpt_ok a.sales_reps m.sales_reps hr
    refine ⟨⟨s, c, p, r⟩, ?_, hs2, hc2, hp2, hr2,
      ⟨((ETLPipeline._load wh ⟨s, c, p, r⟩).1,
        (ETLPipeline._load wh ⟨s, c, p, r⟩).2.1), rfl⟩⟩
    simp [ETLPipeline._transform, hs1, hc1, hp1, hr1, Except.bind, Except.map]
  · constructor <;>
      simp [ETLPipeline.run, log_etl_audit, ETLPipeline._transform, tOpt, ldOf,
        ETLPipeline._load, dimPart, DimData.isEmpty, totalRecords, dsNames,
        optLen, sumVals, initStats, emptyDataMap, Except.bind, Except.map]

/-- Witness for C5: a source providing only sales and customers, with
identity adapters. -/
theorem C5_witness :
    (∃ td, ETLPipeline._transform
        ⟨fun d => .ok d, fun d => .ok d, fun d => .ok d, fun d => .ok d⟩
        ⟨some ⟨[], []⟩, some ⟨[], []⟩, none, none⟩ = .ok td ∧
      td.sales.isSome = (some (⟨[], []⟩ : DataFrame)).isSome ∧
      td.customers.isSome = (some (⟨[], []⟩ : DataFrame)).isSome ∧
      td.products.isSome = (none : Option DataFrame).isSome ∧
      td.sales_reps.isSome = (none : Option DataFrame).isSome ∧
      ∃ res, ldOf whEmpty td = .ok res) ∧
    ((ETLPipeline.run "p" 0 (.ok emptyDataMap)
        (ETLPipeline._transform
          ⟨fun d => .ok d, fun d => .ok d, fun d => .ok d, fun d => .ok d⟩)
        ldOf whEmpty).result =
      .ok ⟨⟨"Success", 0, []⟩, ⟨"Success", 0, []⟩, ⟨"Success", 0, []⟩⟩ ∧
     (ETLPipeline.run "p" 0 (.ok emptyDataMap)
        (ETLPipeline._transform
          ⟨fun d => .ok d, fun d => .ok d, fun d => .ok d, fun d => .ok d⟩)
        ldOf whEmpty).stats =
      ⟨⟨"Success", 0, []⟩, ⟨"Success", 0, []⟩, ⟨"Success", 0, []⟩⟩) :=
  C5_partial_and_empty_source_tolerance
    ⟨fun d => .ok d, fun d => .ok d, fun d => .ok d, fun d => .ok d⟩
    ⟨some ⟨[], []⟩, some ⟨[], []⟩, none, none⟩ whEmpty "p" 0
    (fun d _ => ⟨d, rfl⟩) (fun d _ => ⟨d, rfl⟩)
    (fun d _ => ⟨d, rfl⟩) (fun d _ => ⟨d, rfl⟩)

theorem any_key_iff (t : DimTable) (k : String) :
    (t.rows.any fun dr => dr.naturalKey == k) = true ↔ k ∈ t.keys := by
  simp [DimTable.keys, List.any_eq_true]

theorem upsertDimRow_of_mem (kc : String) (t : DimTable) (row : Row)
    (h : rowVal row kc ∈ t.keys) :
    (upsertDimRow kc t row).keyMap = t.keyMap ∧
    (upsertDimRow kc t row).keys = t.keys := by
  have hc := (any_key_iff t (rowVal row kc)).mpr h
  constructor <;>
    simp [upsertDimRow, hc, DimTable.keyMap, DimTable.keys, List.map_map,
      Function.comp, apply_ite, ite_self]

theorem upsertDimRow_of_not_mem (kc : String) (t : DimTable) (row : Row)
    (h : rowVal row kc ∉ t.keys) :
    (upsertDimRow kc t row).keyMap = t.keyMap ++ [(rowVal row kc, t.nextId)] ∧
    (upsertDimRow kc t row).keys = t.keys ++ [rowVal row kc] := by
  have hc : (t.rows.any fun dr => dr.naturalKey == rowVal row kc) = false := by
    rw [← Bool.not_eq_true, any_key_iff]
    exact h
  constructor <;> simp [upsertDimRow, hc, DimTable.keyMap, DimTable.keys]

theorem self_mem_upsertDimRow (kc : String) (t : DimTable) (row : Row) :
    rowVal row kc ∈ (upsertDimRow kc t row).keys := by
  by_cases h : rowVal row kc ∈ t.keys
  · rw [(upsertDimRow_of_mem kc t row h).2]
    exact h
  · rw [(upsertDimRow_of_not_mem kc t row h).2]
    simp

theorem mem_upsertDimRow_mono (kc : String) (t : DimTable) (row : Row)
    (k : String) (h : k ∈ t.keys) : k ∈ (upsertDimRow kc t row).keys := by
  by_cases h2 : rowVal row kc ∈ t.keys
  · rw [(upsertDimRow_of_mem kc t row h2).2]
    exact h
  · rw [(upsertDimRow_of_not_mem kc t row h2).2]
    exact List.mem_append_left _ h

theorem mem_foldl_upsertDimRow_mono (kc : String) (rows : List Row)
    (t : DimTable) (k : String) (h : k ∈ t.keys) :
    k ∈ (rows.foldl (upsertDimRow kc) t).keys := by
  induction rows generalizing t with
  | nil => exact h
  | cons r rs ih => exact ih _ (mem_upsertDimRow_mono kc t r k h)

theorem self_mem_foldl_upsertDimRow (kc : String) (rows : List Row)
    (t : DimTable) (row : Row) (h : row ∈ rows) :
    rowVal row kc ∈ (rows.foldl (upsertDimRow kc) t).keys := by
  induction rows generalizing t with
  | nil => cases h
  | cons r rs ih =>
    rcases List.mem_cons.mp h with rfl | h2
    · exact mem_foldl_upsertDimRow_mono kc rs _ _ (self_mem_upsertDimRow kc t row)
    · exact ih _ h2

theorem foldl_upsertDimRow_of_all_mem (kc : String) (rows : List Row)
    (t : DimTable) (h : ∀ row ∈ rows, rowVal row kc ∈ t.keys) :
    (rows.foldl (upsertDimRow kc) t).keyMap = t.keyMap ∧
    (rows.foldl (upsertDimRow kc) t).keys = t.keys := by
  induction rows generalizing t with
  | nil => exact ⟨rfl, rfl⟩
  | cons r rs ih =>
    have h1 := upsertDimRow_of_mem kc t r (h r (List.mem_cons_self r rs))
    have h2 := ih (upsertDimRow kc t r) (fun row hrow => by
      rw [h1.2]
      exact h row (List.mem_cons_of_mem r hrow))
    simp only [List.foldl_cons]
    exact ⟨h2.1.trans h1.1, h2.2.trans h1.2⟩

theorem any_factKey_iff (tbl : List FactRow) (k : String) :
    (tbl.any fun t => t.order_number == k) = true ↔ k ∈ factKeys tbl := by
  simp [factKeys, List.any_eq_true]

theorem upsertFactRow_of_mem (tbl : List FactRow) (f : FactRow)
    (h : f.order_number ∈ factKeys tbl) :
    factKeys (upsertFactRow tbl f) = factKeys tbl := by
  have hc := (any_factKey_iff tbl f.order_number).mpr h
  simp [upsertFactRow, hc, factKeys, List.map_map, Function.comp, apply_ite]
  exact fun a _ h2 => h2.symm

theorem upsertFactRow_of_not_mem (tbl : List FactRow) (f : FactRow)
    (h : f.order_number ∉ factKeys tbl) :
    factKeys (upsertFactRow tbl f) = factKeys tbl ++ [f.order_number] := by
  have hc : (tbl.any fun t => t.order_number == f.order_number) = false := by
    rw [← Bool.not_eq_true, any_factKey_iff]
    exact h
  simp [upsertFactRow, hc, factKeys]

theorem self_mem_upsertFactRow (tbl : List FactRow) (f : FactRow) :
    f.order_number ∈ factKeys (upsertFactRow tbl f) := by
  by_cases h : f.order_number ∈ factKeys tbl
  · rw [upsertFactRow_of_mem tbl f h]
    exact h
  · rw [upsertFactRow_of_not_mem tbl f h]
    simp

theorem mem_upsertFactRow_mono (tbl : List FactRow) (f : FactRow) (k : String)
    (h : k ∈ factKeys tbl) : k ∈ factKeys (upsertFactRow tbl f) := by
  by_cases h2 : f.order_number ∈ factKeys tbl
  · rw [upsertFactRow_of_mem tbl f h2]
    exact h
  · rw [upsertFactRow_of_not_mem tbl f h2]
    exact List.mem_append_left _ h

theorem mem_foldl_upsertFactRow_mono (fs : List FactRow) (tbl : List FactRow)
    (k : String) (h : k ∈ factKeys tbl) :
    k ∈ factKeys (fs.foldl upsertFactRow tbl) := by
  induction fs generalizing tbl with
  | nil => exact h
  | cons g gs ih => exact ih _ (mem_upsertFactRow_mono tbl g k h)

theorem self_mem_foldl_upsertFactRow (fs : List FactRow) (tbl : List FactRow)
    (f : FactRow) (h : f ∈ fs) :
    f.order_number ∈ factKeys (fs.foldl upsertFactRow tbl) := by
  induction fs generalizing tbl with
  | nil => cases h
  | cons g gs ih =>
    rcases List.mem_cons.mp h with rfl | h2
    · exact mem_foldl_upsertFactRow_mono gs _ _ (self_mem_upsertFactRow tbl f)
    · exact ih _ h2

theorem foldl_upsertFactRow_of_all_mem (fs : List FactRow) (tbl : List FactRow)
    (h : ∀ f ∈ fs, f.order_number ∈ factKeys tbl) :
    factKeys (fs.foldl upsertFactRow tbl) = factKeys tbl := by
  induction fs generalizing tbl with
  | nil => rfl
  | cons g gs ih =>
    have h1 := upsertFactRow_of_mem tbl g (h g (List.mem_cons_self g gs))
    have h2 := ih (upsertFactRow tbl g) (fun f hf => by
      rw [h1]
      exact h f (List.mem_cons_of_mem g hf))
    simp only [List.foldl_cons]
    exact h2.trans h1

theorem nodup_upsertFactRow (tbl : List FactRow) (f : FactRow)
    (h : (factKeys tbl).Nodup) : (factKeys (upsertFactRow tbl f)).Nodup := by
  by_cases h2 : f.order_number ∈ factKeys tbl
  · rw [upsertFactRow_of_mem tbl f h2]
    exact h
  · rw [upsertFactRow_of_not_mem tbl f h2]
    simp [List.nodup_append, h, h2]

theorem nodup_foldl_upsertFactRow (fs : List FactRow) (tbl : List FactRow)
    (h : (factKeys tbl).Nodup) :
    (factKeys (fs.foldl upsertFactRow tbl)).Nodup := by
  induction fs generalizing tbl with
  | nil => exact h
  | cons g gs ih => exact ih _ (nodup_upsertFactRow tbl g h)

theorem length_eq_factKeys_length (tbl : List FactRow) :
    tbl.length = (factKeys tbl).length := by
  simp [factKeys]

theorem filter_order_length_eq_count (tbl : List FactRow) (k : String) :
    (tbl.filter fun t => t.order_number == k).length = (factKeys tbl).count k := by
  rw [factKeys, List.count_eq_countP, List.countP_map,
    ← List.countP_eq_length_filter]
  rfl

theorem count_one_of_nodup_mem (l : List String) (k : String)
    (hn : l.Nodup) (hm : k ∈ l) : l.count k = 1 :=
  List.count_eq_one_of_mem hn hm

theorem resolveFactRow_congr (w1 w2 : Warehouse)
    (hc : w1.customers.keyMap = w2.customers.keyMap)
    (hp : w1.products.keyMap = w2.products.keyMap)
    (hr : w1.sales_reps.keyMap = w2.sales_reps.keyMap)
    (hd : w1.dates = w2.dates) :
    resolveFactRow w1 = resolveFactRow w2 := by
  funext row
  simp [resolveFactRow, DimTable.lookupSid, hc, hp, hr, hd]

theorem loadDim?_keyMap_idem (kc : String) (t : DimTable) (o : Option DataFrame) :
    ((loadDim? kc (loadDim? kc t o).1 o).1).keyMap = ((loadDim? kc t o).1).keyMap := by
  cases o with
  | none => rfl
  | some d =>
    simp only [loadDim?, loadDimension]
    exact (foldl_upsertDimRow_of_all_mem kc d.rows _ (fun row hrow =>
      self_mem_foldl_upsertDimRow kc d.rows t row hrow)).1

theorem loadDimsOf_eq (wh : Warehouse) (td : DataMap) :
    loadDimsOf wh td = { wh with
      customers := (loadDim? "customer_code" wh.customers td.customers).1,
      products := (loadDim? "product_code" wh.products td.products).1,
      sales_reps := (loadDim? "rep_code" wh.sales_reps td.sales_reps).1 } := by
  by_cases h : (dimPart td).isEmpty
  · obtain ⟨h1, h2, h3⟩ :
        td.customers = none ∧ td.products = none ∧ td.sales_reps = none := by
      simpa [dimPart, DimData.isEmpty, Option.isNone_iff_eq_none, and_assoc]
        using h
    rw [loadDimsOf, if_pos h]
    simp [h1, h2, h3, loadDim?]
  · rw [loadDimsOf, if_neg h]
    simp [load_dimension_tables, dimPart]

theorem _load_warehouse_eq (wh : Warehouse) (td : DataMap) :
    (ETLPipeline._load wh td).1 =
      match td.sales with
      | some d => (load_fact_sales (loadDimsOf wh td) d).1
      | none => loadDimsOf wh td := by
  cases h : td.sales <;>
    by_cases h2 : (dimPart td).isEmpty <;>
      simp [ETLPipeline._load, loadDimsOf, h, h2]

theorem loadDimsOf_again (wh w : Warehouse) (td : DataMap)
    (hc : w.customers = (loadDimsOf wh td).customers)
    (hp : w.products = (loadDimsOf wh td).products)
    (hr : w.sales_reps = (loadDimsOf wh td).sales_reps) :
    (loadDimsOf w td).customers.keyMap = (loadDimsOf wh td).customers.keyMap ∧
    (loadDimsOf w td).products.keyMap = (loadDimsOf wh td).products.keyMap ∧
    (loadDimsOf w td).sales_reps.keyMap = (loadDimsOf wh td).sales_reps.keyMap := by
  rw [loadDimsOf_eq wh td] at hc hp hr
  simp only at hc hp hr
  rw [loadDimsOf_eq w td, loadDimsOf_eq wh td]
  simp only
  rw [hc, hp, hr]
  exact ⟨loadDim?_keyMap_idem _ _ _, loadDim?_keyMap_idem _ _ _,
    loadDim?_keyMap_idem _ _ _⟩

theorem loadDimsOf_dates (wh : Warehouse) (td : DataMap) :
    (loadDimsOf wh td).dates = wh.dates := by
  rw [loadDimsOf_eq]

theorem loadDimsOf_fact (wh : Warehouse) (td : DataMap) :
    (loadDimsOf wh td).fact_sales = wh.fact_sales := by
  rw [loadDimsOf_eq]

/-- C2: loading the same transformed source twice in sequence yields the
same final surrogate-key assignments and the same fact row count as loading
it once, and re-ingesting an identical transaction (same order number) via
`load_fact_sales` leaves exactly one fact row for that order — fact counts
are not inflated. -/
theorem C2_reload_idempotent_and_dedup (wh : Warehouse) (td : DataMap)
    (hnd : uniqueFactKeys wh.fact_sales) :
    ((ETLPipeline._load (ETLPipeline._load wh td).1 td).1).keyMaps =
      ((ETLPipeline._load wh td).1).keyMaps ∧
    ((ETLPipeline._load (ETLPipeline._load wh td).1 td).1).fact_sales.length =
      ((ETLPipeline._load wh td).1).fact_sales.length ∧
    (∀ d row fr, td.sales = some d → row ∈ d.rows →
      resolveFactRow (loadDimsOf wh td) row = some fr →
      (((ETLPipeline._load (ETLPipeline._load wh td).1 td).1).fact_sales.filter
          (fun t => t.order_number == fr.order_number)).length = 1 ∧
      (((ETLPipeline._load wh td).1).fact_sales.filter
          (fun t => t.order_number == fr.order_number)).length = 1) := by
  cases hs : td.sales with
  | none =>
    have e1 : (ETLPipeline._load wh td).1 = loadDimsOf wh td := by
      rw [_load_warehouse_eq, hs]
    have e2 : (ETLPipeline._load (ETLPipeline._load wh td).1 td).1 =
        loadDimsOf (ETLPipeline._load wh td).1 td := by
      rw [_load_warehouse_eq ((ETLPipeline._load wh td).1) td, hs]
    have hkm := loadDimsOf_again wh ((ETLPipeline._load wh td).1) td
      (by rw [e1]) (by rw [e1]) (by rw [e1])
    rw [e1] at hkm
    refine ⟨?_, ?_, ?_⟩
    · rw [e2, e1]
      simp [Warehouse.keyMaps, hkm.1, hkm.2.1, hkm.2.2]
    · rw [e2, e1, loadDimsOf_fact]
    · intro d2 row fr hd2
      exact Option.noConfusion hd2
  | some d =>
    have e1c : (ETLPipeline._load wh td).1.customers =
        (loadDimsOf wh td).customers := by
      rw [_load_warehouse_eq, hs]
      rfl
    have e1p : (ETLPipeline._load wh td).1.products =
        (loadDimsOf wh td).products := by
      rw [_load_warehouse_eq, hs]
      rfl
    have e1r : (ETLPipeline._load wh td).1.sales_reps =
        (loadDimsOf wh td).sales_reps := by
      rw [_load_warehouse_eq, hs]
      rfl
    have e1d : (ETLPipeline._load wh td).1.dates =
        (loadDimsOf wh td).dates := by
      rw [_load_warehouse_eq, hs]
      rfl
    have e1f : (ETLPipeline._load wh td).1.fact_sales =
        (d.rows.filterMap (resolveFactRow (loadDimsOf wh td))).foldl
          upsertFactRow (loadDimsOf wh td).fact_sales := by
      rw [_load_warehouse_eq, hs]
      rfl
    have hkm := loadDimsOf_again wh ((ETLPipeline._load wh td).1) td e1c e1p e1r
    have hdates : (loadDimsOf ((ETLPipeline._load wh td).1) td).dates =
        (loadDimsOf wh td).dates := by
      rw [loadDimsOf_dates]
      exact e1d
    have hresW := resolveFactRow_congr _ _ hkm.1 hkm.2.1 hkm.2.2 hdates
    have e2c : (ETLPipeline._load (ETLPipeline._load wh td).1 td).1.customers =
        (loadDimsOf ((ETLPipeline._load wh td).1) td).customers := by
      rw [_load_warehouse_eq ((ETLPipeline._load wh td).1) td, hs]
      rfl
    have e2p : (ETLPipeline._load (ETLPipeline._load wh td).1 td).1.products =
        (loadDimsOf ((ETLPipeline._load wh td).1) td).products := by
      rw [_load_warehouse_eq ((ETLPipeline._load wh td).1) td, hs]
      rfl
    have e2r : (ETLPipeline._load (ETLPipeline._load wh td).1 td).1.sales_reps =
        (loadDimsOf ((ETLPipeline._load wh td).1) td).sales_reps := by
      rw [_load_warehouse_eq ((ETLPipeline._load wh td).1) td, hs]
      rfl
    have e2f : (ETLPipeline._load (ETLPipeline._load wh td).1 td).1.fact_sales =
        (d.rows.filterMap (resolveFactRow (loadDimsOf wh td))).foldl
          upsertFactRow
          ((d.rows.filterMap (resolveFactRow (loadDimsOf wh td))).foldl
            upsertFactRow (loadDimsOf wh td).fact_sales) := by
      rw [_load_warehouse_eq ((ETLPipeline._load wh td).1) td, hs]
      simp only [load_fact_sales, hresW, loadDimsOf_fact, e1f]
    have hnd1 : (factKeys ((d.rows.filterMap
        (resolveFactRow (loadDimsOf wh td))).foldl upsertFactRow
        (loadDimsOf wh td).fact_sales)).Nodup := by
      apply nodup_foldl_upsertFactRow
      rw [loadDimsOf_fact]
      exact hnd
    have hall : ∀ f ∈ d.rows.filterMap (resolveFactRow (loadDimsOf wh td)),
        f.order_number ∈ factKeys ((d.rows.filterMap
          (resolveFactRow (loadDimsOf wh td))).foldl upsertFactRow
          (loadDimsOf wh td).fact_sales) :=
      fun f hf => self_mem_foldl_upsertFactRow _ _ f hf
    have hkeys := foldl_upsertFactRow_of_all_mem
      (d.rows.filterMap (resolveFactRow (loadDimsOf wh td)))
      ((d.rows.filterMap (resolveFactRow (loadDimsOf wh td))).foldl
        upsertFactRow (loadDimsOf wh td).fact_sales) hall
    refine ⟨?_, ?_, ?_⟩
    · simp [Warehouse.keyMaps, e2c, e2p, e2r, hkm.1, hkm.2.1, hkm.2.2,
        e1c, e1p, e1r]
    · rw [e2f, e1f, length_eq_factKeys_length, length_eq_factKeys_length, hkeys]
    · intro d2 row fr hd2 hrow hresrow
      injection hd2 with hd2
      subst hd2
      have hfr : fr ∈ d.rows.filterMap (resolveFactRow (loadDimsOf wh td)) :=
        List.mem_filterMap.mpr ⟨row, hrow, hresrow⟩
      have hmem1 : fr.order_number ∈ factKeys ((d.rows.filterMap
          (resolveFactRow (loadDimsOf wh td))).foldl upsertFactRow
          (loadDimsOf wh td).fact_sales) :=
        self_mem_foldl_upsertFactRow _ _ fr hfr
      constructor
      · rw [e2f, filter_order_length_eq_count, hkeys]
        exact count_one_of_nodup_mem _ _ hnd1 hmem1
      · rw [e1f, filter_order_length_eq_count]
        exact count_one_of_nodup_mem _ _ hnd1 hmem1

/-- Witness for C2: a warehouse starting empty, one customer/product/rep
and the single transaction ORD001; after loading twice (and once) exactly
one ORD001 fact row exists. -/
theorem C2_witness :
    (((ETLPipeline._load (ETLPipeline._load whC2 tdC2).1 tdC2).1).fact_sales.filter
        (fun t => t.order_number == "ORD001")).length = 1 ∧
    (((ETLPipeline._load whC2 tdC2).1).fact_sales.filter
        (fun t => t.order_number == "ORD001")).length = 1 := by
  have h := C2_reload_idempotent_and_dedup whC2 tdC2 (by simp [uniqueFactKeys, factKeys, whC2])
  exact h.2.2 salesDfC2 ord1Row ⟨"ORD001", 1, 1, 1, "2024-01-15", ord1Row⟩ rfl
    (by simp [salesDfC2]) (by decide)
